import Mathlib

/-!
# Verification of the CSV-to-MySQL loader (`store_data.py`)

A shallow embedding of the loader stage of the customer-info-analysis
pipeline.  Pure string manipulation (`Path(...).stem`, Python slicing,
`str.endswith`, column-definition generation) is translated directly;
the filesystem, the pandas CSV reader and the MySQL server are external
effects, so they enter the model as explicit inputs: a directory is an
optional list of entry names, a CSV read is a `ReadOutcome` (the result
pandas would produce for that file), and the database is an explicit
`DBState` threaded through the operations.  Exceptions are modelled with
`Except`: an exception the Python code catches never shows up in a
result type, an exception it does not catch is an `Except.error`.
-/

namespace StoreData

/-! ## Python string primitives -/

/-- `splitOnChar c l` splits a character list on every occurrence of `c`,
as `str.split` with a one-character separator does. -/
def splitOnChar (c : Char) : List Char → List (List Char)
  | [] => [[]]
  | x :: xs =>
    let r := splitOnChar c xs
    if x = c then [] :: r
    else
      match r with
      | [] => [[x]]
      | h :: t => (x :: h) :: t

/-- Python slice `s[:-n]`: everything but the last `n` characters (empty
when `s` has at most `n` characters). -/
def pySliceDropLast (s : String) (n : Nat) : String :=
  String.mk (s.data.take (s.data.length - n))

/-- Python `str.endswith(suffix)`: no dot or separator is added to the
argument. -/
def pyEndsWith (s suffix : String) : Bool :=
  List.isSuffixOf suffix.data s.data

/-- `os.path.join(folder, f)` for a folder path without trailing slash. -/
def joinPath (folder f : String) : String :=
  folder ++ "/" ++ f

/-- `pathlib.Path(p).name`: the final path component. -/
def pathName (p : String) : String :=
  String.mk ((splitOnChar '/' p.data).getLastD [])

/-- `pathlib.Path(p).stem`: the final component with its last suffix
removed; CPython keeps the whole name when the last dot is the first
character or the last character. -/
def pathStem (p : String) : String :=
  let name := (pathName p).data
  match name.reverse.findIdx? (fun c => c = '.') with
  | none => String.mk name
  | some j =>
    let i := name.length - 1 - j
    if 0 < i ∧ i + 1 < name.length then String.mk (name.take i)
    else String.mk name

/-- `Path(csv_file).stem[:-8]` — the table name the loader derives from a
CSV file path (`load_csv_to_db`). -/
def deriveTableName (p : String) : String :=
  pySliceDropLast (pathStem p) 8

/-! ## Logging -/

/-- A loguru log record, reduced to level and message. -/
inductive LogEntry where
  | info (msg : String)
  | warning (msg : String)
  | error (msg : String)
deriving DecidableEq, Repr

/-! ## Tabular data and CSV reading -/

/-- A `pandas.DataFrame` as the loader uses it: a header naming the
columns and the data rows; cell values are kept as the text fields of
the CSV file. -/
structure DataFrame where
  columns : List String
  rows : List (List String)
deriving DecidableEq, Repr

/-- What `pd.read_csv(file_path)` does for one file: succeed with a
frame, or raise `FileNotFoundError`, `pandas.errors.EmptyDataError`,
`pandas.errors.ParserError`, or any other exception (`otherError`). -/
inductive ReadOutcome where
  | success (df : DataFrame)
  | fileNotFound
  | emptyData
  | parserError
  | otherError (msg : String)
deriving DecidableEq, Repr

/-- `CSVToMySQLLoader.load_csv`: returns the frame on success, returns
`none` (after logging) on the three caught exceptions, and lets every
other exception propagate (`Except.error`). -/
def load_csv (filePath : String) (outcome : ReadOutcome) :
    Except String (Option DataFrame × List LogEntry) :=
  match outcome with
  | .success df =>
      .ok (some df, [.info ("Loaded data from \"" ++ filePath ++ "\".")])
  | .fileNotFound =>
      .ok (none, [.error ("CSV file \"" ++ filePath ++ "\" not found.")])
  | .emptyData =>
      .ok (none, [.error ("CSV file \"" ++ filePath ++ "\" is empty.")])
  | .parserError =>
      .ok (none, [.error ("Error parsing CSV file \"" ++ filePath ++ "\".")])
  | .otherError e => .error e

/-- `CSVToMySQLLoader.generate_columns_definition`:
`', '.join(f'COL VARCHAR(255)' for COL in df.columns)`. -/
def generate_columns_definition (df : DataFrame) : String :=
  String.intercalate ", " (df.columns.map (fun col => col ++ " VARCHAR(255)"))

/-! ## The MySQL server, as the loader exercises it

The loader never inspects the database; it only issues
`CREATE TABLE IF NOT EXISTS`, single-row `INSERT`s inside one
transaction, and `commit`.  The model keeps the committed state as an
association list from table name to table; a statement can fail
(`mysql.connector.Error`), which the model raises for the failure modes
the loader can actually trigger: an invalid table identifier in the
DDL, a missing table on insert, and a column-count mismatch on
insert. -/

/-- A table: the column definition string the DDL carried, plus the
committed rows. -/
structure Table where
  columnsDef : String
  rows : List (List String)
deriving DecidableEq, Repr

/-- The committed database state: tables in creation order. -/
structure DBState where
  tables : List (String × Table)
deriving DecidableEq, Repr

/-- First-match lookup in the table list. -/
def lookupTable (l : List (String × Table)) (n : String) : Option Table :=
  match l with
  | [] => none
  | (k, t) :: rest => if k = n then some t else lookupTable rest n

/-- Replace the first table stored under `n`. -/
def updateTable (l : List (String × Table)) (n : String) (t : Table) :
    List (String × Table) :=
  match l with
  | [] => []
  | (k, t₀) :: rest =>
    if k = n then (k, t) :: rest else (k, t₀) :: updateTable rest n t

/-- A table identifier MySQL accepts unquoted: nonempty, made of
alphanumerics and underscores.  The empty name the loader produces for
short stems is a syntax error. -/
def validIdent (s : String) : Bool :=
  s.data ≠ [] && s.data.all (fun c => c.isAlphanum || c = '_')

/-- How many column definitions a `', '`-joined DDL body declares: one
more than the number of `', '` separators. -/
def countCommaSpace : List Char → Nat
  | ',' :: ' ' :: rest => countCommaSpace rest + 1
  | _ :: rest => countCommaSpace rest
  | [] => 0

/-- Number of columns of a table created with DDL body `s`. -/
def ddlArity (s : String) : Nat :=
  countCommaSpace s.data + 1

/-- Server semantics of
`CREATE TABLE IF NOT EXISTS name (columns);`: error on an invalid
identifier, no-op when the table exists, otherwise append an empty
table. -/
def execCreateTable (db : DBState) (tableName columns : String) :
    Except String DBState :=
  if validIdent tableName then
    match lookupTable db.tables tableName with
    | some _ => .ok db
    | none => .ok ⟨db.tables ++ [(tableName, ⟨columns, []⟩)]⟩
  else .error ("You have an error in your SQL syntax near " ++ tableName)

/-- Server semantics of one `INSERT INTO name VALUES (...)`: error when
the table is missing or the value count differs from the column count,
otherwise append the row. -/
def execInsertRow (db : DBState) (tableName : String) (row : List String) :
    Except String DBState :=
  match lookupTable db.tables tableName with
  | none => .error ("Table " ++ tableName ++ " does not exist")
  | some t =>
    if row.length = ddlArity t.columnsDef then
      .ok ⟨updateTable db.tables tableName ⟨t.columnsDef, t.rows ++ [row]⟩⟩
    else .error "Column count does not match value count"

/-- The `for _, row in data.iterrows(): cursor.execute(...)` loop:
statements execute one at a time, in row order, stopping at the first
error. -/
def insertRows (db : DBState) (tableName : String) :
    List (List String) → Except String DBState
  | [] => .ok db
  | r :: rs =>
    match execInsertRow db tableName r with
    | .ok db₁ => insertRows db₁ tableName rs
    | .error e => .error e

/-- `MySQLDatabaseManager.create_table`: runs the DDL inside
`try/except Error`; an error is logged and swallowed, never re-raised,
and nothing was committed in that case. -/
def create_table (db : DBState) (tableName columns : String) :
    DBState × List LogEntry :=
  match execCreateTable db tableName columns with
  | .ok db₁ =>
      (db₁, [.info ("Table \"" ++ tableName ++ "\" created or exists already.")])
  | .error e =>
      (db, [.error ("Error creating table " ++ tableName ++ ": " ++ e)])

/-- `MySQLDatabaseManager.insert_data`: executes the row statements and
commits only after the whole loop; any `Error` is logged and swallowed,
and the commit in that branch never runs, so the committed state is
unchanged. -/
def insert_data (db : DBState) (tableName : String) (data : DataFrame) :
    DBState × List LogEntry :=
  match insertRows db tableName data.rows with
  | .ok db₁ =>
      (db₁, [.info ("Data inserted into \"" ++ tableName ++ "\".")])
  | .error e =>
      (db, [.error ("Error inserting data into " ++ tableName ++ ": " ++ e)])

/-! ## Connection lifecycle -/

/-- The `mysql.connector` connection object, as
`MySQLDatabaseManager` observes it: `is_connected()` is true until
`close()` is called. -/
inductive ConnState where
  | connected
  | closed
deriving DecidableEq, Repr

/-- `MySQLDatabaseManager`: `__init__` stores the connection, or `None`
when `mysql.connector.connect` raised. -/
structure Manager where
  connection : Option ConnState
deriving DecidableEq, Repr

/-- `MySQLDatabaseManager.__init__`: on a connection error the instance
keeps `connection = None` instead of raising. -/
def Manager.init (connectOk : Bool) : Manager :=
  if connectOk then ⟨some .connected⟩ else ⟨none⟩

/-- `MySQLDatabaseManager.close`: closes only when
`self.connection and self.connection.is_connected()`. -/
def Manager.close (m : Manager) : Manager × List LogEntry :=
  match m.connection with
  | some .connected => (⟨some .closed⟩, [.info "Database connection closed."])
  | _ => (m, [])

/-! ## File discovery -/

/-- `get_files`: the directory is an input — `none` when
`os.path.exists` is false, otherwise the entry names in `os.listdir`
order.  The body filters with `f.endswith(file_extension)` and joins
with the folder path; the surrounding `try/except` turns any escape
into `[]`, so the function is total. -/
def get_files (dir : Option (List String)) (folderPath : String)
    (fileExtension : String) : List String × List LogEntry :=
  match dir with
  | none =>
      ([], [.error ("Folder \"" ++ folderPath ++ "\" does not exist.")])
  | some entries =>
    let files := entries.filter (fun f => pyEndsWith f fileExtension)
    let fullPaths := files.map (fun f => joinPath folderPath f)
    if fullPaths = [] then
      (fullPaths,
        [.warning ("No files with the extension \"" ++ fileExtension ++
          "\" found in this location \"" ++ folderPath ++ "\"")])
    else
      (fullPaths,
        [.info ("Found some \"" ++ fileExtension ++
          "\" file(s) in this location \"" ++ folderPath ++ "\".")])

/-! ## The loader driver -/

/-- One input file: its path and what reading it yields. -/
structure CsvFile where
  path : String
  outcome : ReadOutcome
deriving DecidableEq, Repr

/-- The database calls the loader issues, in order. -/
inductive DBAction where
  | createTable (tableName columns : String)
  | insertData (tableName : String) (df : DataFrame)
deriving DecidableEq, Repr

/-- One iteration of the `load_csv_to_db` loop: derive the table name,
read the file, and when a frame came back, call `create_table` then
`insert_data`.  An uncaught read exception propagates. -/
def processFile (acc : DBState × List LogEntry × List DBAction)
    (f : CsvFile) :
    Except String (DBState × List LogEntry × List DBAction) :=
  let (db, log, tr) := acc
  let tableName := deriveTableName f.path
  match load_csv f.path f.outcome with
  | .error e => .error e
  | .ok (none, l₁) => .ok (db, log ++ l₁, tr)
  | .ok (some df, l₁) =>
    let columns := generate_columns_definition df
    let (db₁, l₂) := create_table db tableName columns
    let (db₂, l₃) := insert_data db₁ tableName df
    .ok (db₂, log ++ l₁ ++ l₂ ++ l₃,
      tr ++ [.createTable tableName columns, .insertData tableName df])

/-- Iterate `processFile` over the batch. -/
def runFiles (acc : DBState × List LogEntry × List DBAction) :
    List CsvFile → Except String (DBState × List LogEntry × List DBAction)
  | [] => .ok acc
  | f :: fs =>
    match processFile acc f with
    | .ok acc₁ => runFiles acc₁ fs
    | .error e => .error e

/-- `CSVToMySQLLoader.load_csv_to_db`: the whole batch, from a committed
database state, with the log lines and database calls it produces. -/
def load_csv_to_db (db : DBState) (files : List CsvFile) :
    Except String (DBState × List LogEntry × List DBAction) :=
  runFiles (db, [], []) files

/-- The database calls one loop iteration issues (none when the
iteration raised). -/
def processTrace (acc : DBState × List LogEntry × List DBAction)
    (f : CsvFile) : List DBAction :=
  match processFile acc f with
  | .ok r => r.2.2
  | .error _ => []

/-- The guarded part of `main`: table operations run only when
`db_manager.connection` is truthy; a failed construction runs nothing
against the database. -/
def main_run (connectOk : Bool) (db : DBState) (files : List CsvFile) :
    Except String (List DBAction) :=
  if (Manager.init connectOk).connection.isSome then
    (load_csv_to_db db files).map (fun r => r.2.2)
  else .ok []

/-! ## Spec-side definitions used for refinement comparisons -/

/-- `list_files` as the spec words it: keep exactly the entries whose
name ends with `.<extension>`, dot included. -/
def get_files_spec (dir : Option (List String)) (folderPath : String)
    (fileExtension : String) : List String :=
  match dir with
  | none => []
  | some entries =>
    (entries.filter (fun f => pyEndsWith f ("." ++ fileExtension))).map
      (fun f => joinPath folderPath f)

/-- The column definition as the spec words it: a mapping from each
column name to the fixed text-storage type, in header order. -/
def specColumnDefinition (df : DataFrame) : List (String × String) :=
  df.columns.map (fun c => (c, "VARCHAR(255)"))

/-! ## Batch bookkeeping for the loader claims -/

/-- The table name the loader derives for a file. -/
def fileTableName (f : CsvFile) : String :=
  deriveTableName f.path

/-- A file whose processing succeeds end to end: it parses, its derived
table name is a valid identifier, and every row matches the column
count of the generated DDL. -/
def niceFile (f : CsvFile) : Bool :=
  match f.outcome with
  | .success df =>
    validIdent (fileTableName f) &&
    df.rows.all
      (fun r => r.length == ddlArity (generate_columns_definition df))
  | _ => false

/-- The committed table a successfully processed file contributes. -/
def fileTables (f : CsvFile) : List (String × Table) :=
  match f.outcome with
  | .success df =>
      [(fileTableName f, ⟨generate_columns_definition df, df.rows⟩)]
  | _ => []

/-- The log lines a successfully processed file produces. -/
def fileLogs (f : CsvFile) : List LogEntry :=
  match f.outcome with
  | .success _ =>
      [.info ("Loaded data from \"" ++ f.path ++ "\"."),
       .info ("Table \"" ++ fileTableName f ++ "\" created or exists already."),
       .info ("Data inserted into \"" ++ fileTableName f ++ "\".")]
  | _ => []

/-- The database calls a successfully processed file issues. -/
def fileActions (f : CsvFile) : List DBAction :=
  match f.outcome with
  | .success df =>
      [.createTable (fileTableName f) (generate_columns_definition df),
       .insertData (fileTableName f) df]
  | _ => []

/-- The log line `load_csv` writes for an unparseable file. -/
def parseErrorLog (f : CsvFile) : LogEntry :=
  .error ("Error parsing CSV file \"" ++ f.path ++ "\".")

/-! ## The end-to-end scenario of the spec -/

/-- The parsed contents of `orders_202401.csv`
(`id,amount` / `1,10.50` / `2,20.00`). -/
def ordersDF : DataFrame :=
  ⟨["id", "amount"], [["1", "10.50"], ["2", "20.00"]]⟩

/-- The scenario batch: a well-formed orders file and an empty users
file. -/
def scenarioFiles : List CsvFile :=
  [⟨"orders_202401.csv", .success ordersDF⟩,
   ⟨"users_202401.csv", .emptyData⟩]

/-- The committed database state after running the loader on the
scenario batch against an empty database. -/
def scenarioDB : DBState :=
  match load_csv_to_db ⟨[]⟩ scenarioFiles with
  | .ok r => r.1
  | .error _ => ⟨[]⟩

/-! ## Association-list toolkit -/

theorem lookupTable_eq_none_iff (l : List (String × Table)) (n : String) :
    lookupTable l n = none ↔ n ∉ l.map Prod.fst := by
  induction l with
  | nil => simp [lookupTable]
  | cons p rest ih =>
    obtain ⟨k, t⟩ := p
    by_cases hk : k = n
    · subst hk
      simp [lookupTable]
    · simp [lookupTable, hk, ih, Ne.symm hk]

theorem lookupTable_append_of_none (l l' : List (String × Table))
    (n : String) (h : lookupTable l n = none) :
    lookupTable (l ++ l') n = lookupTable l' n := by
  induction l with
  | nil => simp
  | cons p rest ih =>
    obtain ⟨k, t⟩ := p
    by_cases hk : k = n
    · simp [lookupTable, hk] at h
    · simp [lookupTable, hk] at h ⊢
      exact ih h

theorem lookupTable_update_self (l : List (String × Table)) (n : String)
    (t t' : Table) (h : lookupTable l n = some t) :
    lookupTable (updateTable l n t') n = some t' := by
  induction l with
  | nil => simp [lookupTable] at h
  | cons p rest ih =>
    obtain ⟨k, t₀⟩ := p
    by_cases hk : k = n
    · simp [lookupTable, updateTable, hk]
    · simp only [lookupTable, hk, if_false] at h
      simp only [updateTable, hk, if_false, lookupTable]
      exact ih h

theorem updateTable_updateTable (l : List (String × Table)) (n : String)
    (t₁ t₂ : Table) :
    updateTable (updateTable l n t₁) n t₂ = updateTable l n t₂ := by
  induction l with
  | nil => simp [updateTable]
  | cons p rest ih =>
    obtain ⟨k, t₀⟩ := p
    by_cases hk : k = n
    · simp [updateTable, hk]
    · simp [updateTable, hk, ih]

theorem updateTable_of_lookup_eq (l : List (String × Table)) (n : String)
    (t : Table) (h : lookupTable l n = some t) :
    updateTable l n t = l := by
  induction l with
  | nil => rfl
  | cons p rest ih =>
    obtain ⟨k, t₀⟩ := p
    by_cases hk : k = n
    · subst hk
      simp [lookupTable] at h
      simp [updateTable, h]
    · simp only [lookupTable, hk, if_false] at h
      simp [updateTable, hk, ih h]

theorem updateTable_append_of_none (l : List (String × Table)) (n : String)
    (t t' : Table) (h : lookupTable l n = none) :
    updateTable (l ++ [(n, t)]) n t' = l ++ [(n, t')] := by
  induction l with
  | nil => simp [updateTable]
  | cons p rest ih =>
    obtain ⟨k, t₀⟩ := p
    by_cases hk : k = n
    · simp [lookupTable, hk] at h
    · simp only [lookupTable, hk, if_false] at h
      simp [updateTable, hk, ih h]

theorem mk_append (a b : List Char) :
    String.mk a ++ String.mk b = String.mk (a ++ b) := rfl

theorem pySliceDropLast_append_drop (s : String) (n : Nat) :
    pySliceDropLast s n ++ String.mk (s.data.drop (s.data.length - n)) = s := by
  cases s with
  | mk l => simp [pySliceDropLast, mk_append, List.take_append_drop]

theorem insertRows_ok (n : String) (rows : List (List String)) :
    ∀ (db : DBState) (t : Table), lookupTable db.tables n = some t →
    (∀ r ∈ rows, r.length = ddlArity t.columnsDef) →
    insertRows db n rows =
      .ok ⟨updateTable db.tables n ⟨t.columnsDef, t.rows ++ rows⟩⟩ := by
  induction rows with
  | nil =>
    intro db t hlk _
    have ht : (⟨t.columnsDef, t.rows ++ []⟩ : Table) = t := by
      cases t
      simp
    show Except.ok db = _
    rw [ht, updateTable_of_lookup_eq _ _ _ hlk]
  | cons r rs ih =>
    intro db t hlk hlen
    have hr : r.length = ddlArity t.columnsDef := hlen r (by simp)
    have hstep : execInsertRow db n r =
        .ok ⟨updateTable db.tables n ⟨t.columnsDef, t.rows ++ [r]⟩⟩ := by
      simp [execInsertRow, hlk, hr]
    have hlk' :
        lookupTable (updateTable db.tables n ⟨t.columnsDef, t.rows ++ [r]⟩) n
          = some ⟨t.columnsDef, t.rows ++ [r]⟩ :=
      lookupTable_update_self _ _ _ _ hlk
    have hrec := ih ⟨updateTable db.tables n ⟨t.columnsDef, t.rows ++ [r]⟩⟩
      ⟨t.columnsDef, t.rows ++ [r]⟩ hlk'
      (fun r' hr' => hlen r' (List.mem_cons_of_mem _ hr'))
    simp only [insertRows, hstep, hrec, updateTable_updateTable]
    congr 2
    simp

theorem lookupTable_fileTables_of_ne (f : CsvFile) (n : String)
    (hne : ¬ fileTableName f = n) :
    lookupTable (fileTables f) n = none := by
  cases ho : f.outcome <;> simp [fileTables, ho, lookupTable, hne]

theorem lookupTable_flatMap_of_not_mem (fs : List CsvFile) (n : String)
    (h : n ∉ fs.map fileTableName) :
    lookupTable (fs.flatMap fileTables) n = none := by
  induction fs with
  | nil => simp [lookupTable]
  | cons f rest ih =>
    simp only [List.map_cons, List.mem_cons, not_or] at h
    rw [List.flatMap_cons,
      lookupTable_append_of_none _ _ _
        (lookupTable_fileTables_of_ne f n (fun he => h.1 he.symm))]
    exact ih h.2

theorem parseErrorLog_not_mem_fileLogs (g f : CsvFile) :
    parseErrorLog g ∉ fileLogs f := by
  cases ho : f.outcome <;> simp [fileLogs, ho, parseErrorLog]

theorem processFile_nice (db : DBState) (log : List LogEntry)
    (tr : List DBAction) (f : CsvFile) (h : niceFile f = true)
    (hfresh : lookupTable db.tables (deriveTableName f.path) = none) :
    processFile (db, log, tr) f =
      .ok (⟨db.tables ++ fileTables f⟩, log ++ fileLogs f,
        tr ++ fileActions f) := by
  cases ho : f.outcome with
  | success df =>
    simp only [niceFile, fileTableName, ho, Bool.and_eq_true,
      List.all_eq_true, beq_iff_eq] at h
    obtain ⟨hv, hall⟩ := h
    have hct : create_table db (deriveTableName f.path)
        (generate_columns_definition df) =
        (⟨db.tables ++ [(deriveTableName f.path,
            ⟨generate_columns_definition df, []⟩)]⟩,
          [.info ("Table \"" ++ deriveTableName f.path ++
            "\" created or exists already.")]) := by
      simp [create_table, execCreateTable, hv, hfresh]
    have hlk₂ : lookupTable
        (db.tables ++ [(deriveTableName f.path,
          ⟨generate_columns_definition df, []⟩)])
        (deriveTableName f.path) =
        some ⟨generate_columns_definition df, []⟩ := by
      rw [lookupTable_append_of_none _ _ _ hfresh]
      simp [lookupTable]
    have hrows := insertRows_ok (deriveTableName f.path) df.rows
      ⟨db.tables ++ [(deriveTableName f.path,
        ⟨generate_columns_definition df, []⟩)]⟩
      ⟨generate_columns_definition df, []⟩ hlk₂ hall
    have hins : insert_data
        ⟨db.tables ++ [(deriveTableName f.path,
          ⟨generate_columns_definition df, []⟩)]⟩
        (deriveTableName f.path) df =
        (⟨db.tables ++ [(deriveTableName f.path,
            ⟨generate_columns_definition df, df.rows⟩)]⟩,
          [.info ("Data inserted into \"" ++ deriveTableName f.path ++
            "\".")]) := by
      simp only [insert_data, hrows]
      rw [updateTable_append_of_none _ _ _ _ hfresh]
      simp
    simp only [processFile, ho, load_csv, hct, hins, fileTables, fileLogs,
      fileActions, fileTableName]
    simp
  | fileNotFound => simp [niceFile, ho] at h
  | emptyData => simp [niceFile, ho] at h
  | parserError => simp [niceFile, ho] at h
  | otherError e => simp [niceFile, ho] at h

theorem runFiles_append (xs ys : List CsvFile) :
    ∀ acc, runFiles acc (xs ++ ys) =
      match runFiles acc xs with
      | .ok acc₁ => runFiles acc₁ ys
      | .error e => .error e := by
  induction xs with
  | nil =>
    intro acc
    simp [runFiles]
  | cons x xs ih =>
    intro acc
    simp only [List.cons_append, runFiles]
    cases processFile acc x with
    | ok acc₁ => exact ih acc₁
    | error e => rfl

theorem runFiles_nice (files : List CsvFile) :
    ∀ (db : DBState) (log : List LogEntry) (tr : List DBAction),
    (∀ f ∈ files, niceFile f = true) →
    (files.map fileTableName).Nodup →
    (∀ f ∈ files, lookupTable db.tables (fileTableName f) = none) →
    runFiles (db, log, tr) files =
      .ok (⟨db.tables ++ files.flatMap fileTables⟩,
        log ++ files.flatMap fileLogs, tr ++ files.flatMap fileActions) := by
  induction files with
  | nil =>
    intro db log tr _ _ _
    simp [runFiles]
  | cons f fs ih =>
    intro db log tr hnice hnodup hfresh
    simp only [List.map_cons, List.nodup_cons] at hnodup
    have h₁ := processFile_nice db log tr f (hnice f (by simp))
      (hfresh f (by simp))
    have hfresh' : ∀ g ∈ fs,
        lookupTable (db.tables ++ fileTables f) (fileTableName g) = none := by
      intro g hg
      rw [lookupTable_append_of_none _ _ _
        (hfresh g (List.mem_cons_of_mem _ hg))]
      refine lookupTable_fileTables_of_ne f _ (fun he => hnodup.1 ?_)
      rw [he]
      exact List.mem_map_of_mem fileTableName hg
    have h₂ := ih ⟨db.tables ++ fileTables f⟩ (log ++ fileLogs f)
      (tr ++ fileActions f)
      (fun g hg => hnice g (List.mem_cons_of_mem _ hg)) hnodup.2 hfresh'
    simp only [runFiles, h₁, h₂, List.flatMap_cons, List.append_assoc]

/-! ## Claims -/

/-- Claim C2: the table name the loader derives is a deterministic
function of the file name alone — the file stem with a fixed-length
suffix of exactly 8 characters removed (whenever the stem is long
enough to carry one, an explicit 8-character suffix is split off) — and
for a batch of input files the derived names are independent of the
order in which the files are processed: permuting the batch permutes
the derived names identically. -/
theorem derive_table_name_deterministic :
    (∀ p : String, 8 < (pathStem p).length →
      ∃ suf : String, suf.length = 8 ∧
        pathStem p = deriveTableName p ++ suf) ∧
    (∀ files files' : List String, files.Perm files' →
      (files.map deriveTableName).Perm (files'.map deriveTableName)) := by
  constructor
  · intro p hp
    refine ⟨String.mk ((pathStem p).data.drop ((pathStem p).data.length - 8)),
      ?_, ?_⟩
    · have hl : 8 < (pathStem p).data.length := hp
      simp only [String.length_mk, List.length_drop]
      omega
    · exact (pySliceDropLast_append_drop (pathStem p) 8).symm
  · intro files files' h
    exact h.map deriveTableName

/-- Claim C2 witness: for `orders_202401.csv` the stem
`orders_202401` is long enough, and it splits as the derived name
`order` followed by an 8-character suffix. -/
theorem derive_table_name_deterministic_witness :
    8 < (pathStem "orders_202401.csv").length ∧
    ∃ suf : String, suf.length = 8 ∧
      pathStem "orders_202401.csv" =
        deriveTableName "orders_202401.csv" ++ suf :=
  ⟨by decide,
    derive_table_name_deterministic.1 "orders_202401.csv" (by decide)⟩

/-- Claim C3 counterexample: `get_files` filters with Python
`endswith(extension)` with no dot prepended, so in a directory whose
only entry is `abcsv` it returns that entry, while the claimed
dot-included filter returns nothing. -/
theorem get_files_dot_counterexample :
    (get_files (some ["abcsv"]) "data" "csv").1 = ["data/abcsv"] ∧
    get_files_spec (some ["abcsv"]) "data" "csv" = [] := by
  decide

/-- Claim C3 as amended: for every directory and extension, `get_files`
returns the empty sequence when the directory does not exist, and
otherwise returns the full paths of exactly those entries whose name
ends with the extension string as given (no dot prepended), in the
order of the underlying listing; the function is total, so it never
raises. -/
theorem get_files_characterization (dir : Option (List String))
    (p e : String) :
    (get_files none p e).1 = [] ∧
    (∀ entries, dir = some entries →
      (get_files dir p e).1 =
        (entries.filter (fun f => pyEndsWith f e)).map
          (fun f => joinPath p f)) := by
  refine ⟨rfl, ?_⟩
  rintro entries rfl
  by_cases h :
      (entries.filter (fun f => pyEndsWith f e)).map (fun f => joinPath p f)
        = []
  · simp [get_files, h]
  · simp [get_files, h]

/-- Claim C3 witness: on a concrete listing the matching entries (with
no dot forced before the extension) come back joined to the folder
path, in listing order. -/
theorem get_files_characterization_witness :
    (get_files (some ["a.csv", "b.txt", "abcsv"]) "data" "csv").1 =
      ["data/a.csv", "data/abcsv"] :=
  ((get_files_characterization (some ["a.csv", "b.txt", "abcsv"])
      "data" "csv").2 ["a.csv", "b.txt", "abcsv"] rfl).trans (by decide)

/-- Claim C5: `load_csv` returns the parsed frame exactly on a
successful read, returns a logged `none` (not an exception) exactly in
the three recoverable cases — file not found, empty file, unparseable
content — and this enumeration is closed: it raises exactly when the
read fails with any other exception. -/
theorem load_csv_recoverable_closed (p : String) (o : ReadOutcome) :
    ((∃ l, load_csv p o = .ok (none, l)) ↔
      o = .fileNotFound ∨ o = .emptyData ∨ o = .parserError) ∧
    ((∃ df l, load_csv p o = .ok (some df, l)) ↔
      ∃ df, o = .success df) ∧
    ((∃ e, load_csv p o = .error e) ↔ ∃ m, o = .otherError m) := by
  cases o <;> simp [load_csv]

/-- Claim C6: the generated column definition is the rendering of the
spec-side mapping that sends every column of the frame, in header
order, to the fixed text-storage type `VARCHAR(255)`: the rendered
string agrees, the mapped names are exactly the header in order, and
every mapped type is `VARCHAR(255)`. -/
theorem generate_columns_definition_refines (df : DataFrame) :
    generate_columns_definition df =
      String.intercalate ", "
        ((specColumnDefinition df).map (fun q => q.1 ++ " " ++ q.2)) ∧
    (specColumnDefinition df).map Prod.fst = df.columns ∧
    (specColumnDefinition df).map Prod.snd =
      df.columns.map (fun _ => "VARCHAR(255)") := by
  refine ⟨?_, ?_, ?_⟩
  · simp only [generate_columns_definition, specColumnDefinition,
      List.map_map]
    congr 1
    apply List.map_congr_left
    intro c _
    show c ++ " VARCHAR(255)" = c ++ " " ++ "VARCHAR(255)"
    rw [String.append_assoc]
    congr 1
  · simp [specColumnDefinition, List.map_map, Function.comp_def]
  · simp [specColumnDefinition, List.map_map, Function.comp_def,
      List.map_const']

/-- Claim C9: `close` is idempotent — closing an already-closed or
never-connected manager is a no-op that raises nothing — a failed
construction leaves the manager with no connection, closing such a
manager is also a no-op, and the driver (`main`) issues no database
actions at all when construction failed to connect. -/
theorem connection_lifecycle (m : Manager) (db : DBState)
    (files : List CsvFile) :
    m.close.1.close = (m.close.1, []) ∧
    (Manager.init false).connection = none ∧
    (Manager.init false).close = (Manager.init false, []) ∧
    main_run false db files = .ok [] := by
  refine ⟨?_, rfl, rfl, rfl⟩
  rcases m with ⟨_ | c⟩
  · rfl
  · cases c <;> rfl

/-- Claim C7: `create_table` issues `CREATE TABLE IF NOT EXISTS`, so for
a valid table name a second call with the same arguments never fails and
leaves the schema exactly as the first call left it; and when the
database reports an error the error is logged and swallowed —
`create_table` returns normally with the committed state untouched. -/
theorem create_table_idempotent_swallow (db : DBState) (n c : String) :
    (validIdent n = true →
      create_table (create_table db n c).1 n c =
        ((create_table db n c).1,
          [.info ("Table \"" ++ n ++ "\" created or exists already.")])) ∧
    (validIdent n = false →
      create_table db n c =
        (db, [.error ("Error creating table " ++ n ++ ": " ++
          ("You have an error in your SQL syntax near " ++ n))])) := by
  constructor
  · intro hv
    cases hlk : lookupTable db.tables n with
    | some t =>
      simp [create_table, execCreateTable, hv, hlk]
    | none =>
      have h₁ : create_table db n c =
          (⟨db.tables ++ [(n, ⟨c, []⟩)]⟩,
            [.info ("Table \"" ++ n ++ "\" created or exists already.")]) := by
        simp [create_table, execCreateTable, hv, hlk]
      rw [h₁]
      have h₂ : lookupTable (db.tables ++ [(n, ⟨c, []⟩)]) n =
          some ⟨c, []⟩ := by
        rw [lookupTable_append_of_none _ _ _ hlk]
        simp [lookupTable]
      simp [create_table, execCreateTable, hv, h₂]
  · intro hv
    simp [create_table, execCreateTable, hv]

/-- Claim C7 witness: creating table `t` twice in an empty database
leaves exactly the schema of the first call, and creating a table under
the invalid empty name logs the database error and leaves the empty
database untouched, raising nothing. -/
theorem create_table_idempotent_swallow_witness :
    (validIdent "t" = true ∧
      create_table (create_table ⟨[]⟩ "t" "c VARCHAR(255)").1 "t"
          "c VARCHAR(255)" =
        ((create_table ⟨[]⟩ "t" "c VARCHAR(255)").1,
          [.info "Table \"t\" created or exists already."])) ∧
    (validIdent "" = false ∧
      create_table ⟨[]⟩ "" "c VARCHAR(255)" =
        (⟨[]⟩,
          [.error
            "Error creating table : You have an error in your SQL syntax near "])) := by
  refine ⟨⟨by decide, ?_⟩, by decide, ?_⟩
  · exact ((create_table_idempotent_swallow ⟨[]⟩ "t" "c VARCHAR(255)").1
      (by decide)).trans (by decide)
  · exact ((create_table_idempotent_swallow ⟨[]⟩ "" "c VARCHAR(255)").2
      (by decide)).trans (by decide)

/-- Claim C8: `insert_data` executes one `INSERT` statement per row, in
file order, inside a single transaction committed only after the whole
loop: when the table exists and every row matches its column count, the
committed result appends exactly the rows, in order, behind the
existing ones; and whenever the row loop fails, the whole table's
insert is logged as failed and abandoned — the committed state is
exactly the state before the call (no commit runs in the error branch)
and nothing is raised to the caller. -/
theorem insert_data_transactional (db : DBState) (n : String)
    (data : DataFrame) (t : Table) :
    (lookupTable db.tables n = some t →
      (∀ r ∈ data.rows, r.length = ddlArity t.columnsDef) →
      insert_data db n data =
        (⟨updateTable db.tables n ⟨t.columnsDef, t.rows ++ data.rows⟩⟩,
          [.info ("Data inserted into \"" ++ n ++ "\".")])) ∧
    (∀ e, insertRows db n data.rows = .error e →
      insert_data db n data =
        (db, [.error ("Error inserting data into " ++ n ++ ": " ++ e)])) := by
  constructor
  · intro hlk hlen
    simp [insert_data, insertRows_ok n data.rows db t hlk hlen]
  · intro e he
    simp [insert_data, he]

/-- Claim C8 witness: into a table `t` holding one row, inserting the
frame with rows `[1]`, `[2]` commits the rows appended in file order;
inserting a frame whose single row has two values fails the row loop
and leaves the committed table exactly as before, with the failure
logged. -/
theorem insert_data_transactional_witness :
    (insert_data ⟨[("t", ⟨"c VARCHAR(255)", [["0"]]⟩)]⟩ "t"
        ⟨["c"], [["1"], ["2"]]⟩ =
      (⟨[("t", ⟨"c VARCHAR(255)", [["0"], ["1"], ["2"]]⟩)]⟩,
        [.info "Data inserted into \"t\"."])) ∧
    (insert_data ⟨[("t", ⟨"c VARCHAR(255)", [["0"]]⟩)]⟩ "t"
        ⟨["c"], [["1", "2"]]⟩ =
      (⟨[("t", ⟨"c VARCHAR(255)", [["0"]]⟩)]⟩,
        [.error
          "Error inserting data into t: Column count does not match value count"])) := by
  constructor
  · exact ((insert_data_transactional ⟨[("t", ⟨"c VARCHAR(255)", [["0"]]⟩)]⟩
      "t" ⟨["c"], [["1"], ["2"]]⟩ ⟨"c VARCHAR(255)", [["0"]]⟩).1
      (by decide) (by decide)).trans (by decide)
  · exact ((insert_data_transactional ⟨[("t", ⟨"c VARCHAR(255)", [["0"]]⟩)]⟩
      "t" ⟨["c"], [["1", "2"]]⟩ ⟨"c VARCHAR(255)", [["0"]]⟩).2
      "Column count does not match value count" rfl).trans (by decide)

/-- Claim C10: for a file whose stem has 8 or fewer characters the
derived table name is the empty string — `stem[:-8]` truncates the
whole stem — and when such a file parses the loop still proceeds,
calling `create_table` and then `insert_data` with that empty name
rather than failing fast or skipping the file; the iteration returns
normally. -/
theorem short_stem_empty_table_name (f : CsvFile) (df : DataFrame)
    (db : DBState) (log : List LogEntry) (tr : List DBAction)
    (hstem : (pathStem f.path).length ≤ 8)
    (hout : f.outcome = .success df) :
    deriveTableName f.path = "" ∧
    (processFile (db, log, tr) f).isOk = true ∧
    processTrace (db, log, tr) f =
      tr ++ [.createTable "" (generate_columns_definition df),
        .insertData "" df] := by
  have h0 : (pathStem f.path).data.length - 8 = 0 := by
    have hl : (pathStem f.path).data.length ≤ 8 := hstem
    omega
  have hname : deriveTableName f.path = "" := by
    simp only [deriveTableName, pySliceDropLast, h0, List.take_zero]
  refine ⟨hname, ?_⟩
  rcases hct : create_table db "" (generate_columns_definition df)
    with ⟨db₁, l₂⟩
  rcases hins : insert_data db₁ "" df with ⟨db₂, l₃⟩
  have hpf : processFile (db, log, tr) f =
      .ok (db₂,
        log ++ [.info ("Loaded data from \"" ++ f.path ++ "\".")] ++ l₂ ++ l₃,
        tr ++ [.createTable "" (generate_columns_definition df),
          .insertData "" df]) := by
    simp only [processFile, hout, load_csv, hname, hct, hins]
  refine ⟨?_, ?_⟩
  · rw [hpf]
    rfl
  · simp [processTrace, hpf]

/-- Claim C10 witness: `users.csv` has the 5-character stem `users`, so
its table name is empty, and its (parsed, one-row) frame is still
pushed through `create_table` and `insert_data` under the empty
name. -/
theorem short_stem_empty_table_name_witness :
    (pathStem "users.csv").length ≤ 8 ∧
    deriveTableName "users.csv" = "" ∧
    (processFile (⟨[]⟩, [], []) ⟨"users.csv",
      .success ⟨["id"], [["1"]]⟩⟩).isOk = true ∧
    processTrace (⟨[]⟩, [], []) ⟨"users.csv", .success ⟨["id"], [["1"]]⟩⟩ =
      [] ++ [.createTable "" (generate_columns_definition ⟨["id"], [["1"]]⟩),
        .insertData "" ⟨["id"], [["1"]]⟩] :=
  ⟨by decide,
    short_stem_empty_table_name ⟨"users.csv", .success ⟨["id"], [["1"]]⟩⟩
      ⟨["id"], [["1"]]⟩ ⟨[]⟩ [] [] (by decide) rfl⟩

/-- Claim C1 counterexample: running the loader on the scenario batch
(`orders_202401.csv` with rows `1,10.50` and `2,20.00`, plus an empty
`users_202401.csv`) creates no table named `orders`:
`Path('orders_202401.csv').stem[:-8]` drops the last 8 characters of
the 13-character stem `orders_202401`, so the created table is named
`order`. -/
theorem end_to_end_orders_name_counterexample :
    lookupTable scenarioDB.tables "orders" = none ∧
    lookupTable scenarioDB.tables "order" =
      some ⟨"id VARCHAR(255), amount VARCHAR(255)",
        [["1", "10.50"], ["2", "20.00"]]⟩ := by
  decide

/-- Claim C1 as amended: on the scenario batch the loader run succeeds
and commits exactly one table, named `order` (the stem of the orders
file minus its last 8 characters), whose column definition types both
columns `id` and `amount` as text and whose rows are exactly
`("1","10.50")` and `("2","20.00")`; no table is created for the empty
users file, and a log entry records the empty-file skip. -/
theorem end_to_end_scenario :
    load_csv_to_db ⟨[]⟩ scenarioFiles =
      .ok (⟨[("order",
          ⟨"id VARCHAR(255), amount VARCHAR(255)",
            [["1", "10.50"], ["2", "20.00"]]⟩)]⟩,
        [.info "Loaded data from \"orders_202401.csv\".",
         .info "Table \"order\" created or exists already.",
         .info "Data inserted into \"order\".",
         .error "CSV file \"users_202401.csv\" is empty."],
        [.createTable "order" "id VARCHAR(255), amount VARCHAR(255)",
         .insertData "order" ordersDF]) := by
  rfl

/-- Claim C4: failure isolation — for a batch in which exactly one file
is malformed (unparseable) and the rest are well-formed, the loader
still creates and populates a table for every other file (the final
committed state holds exactly those tables, and the action trace is
exactly their create/insert calls, with no call for the malformed
file), the log carries exactly one skip entry for the malformed file,
and the whole batch returns `.ok` — no exception escapes
`load_csv_to_db`. -/
theorem failure_isolation (db : DBState) (fs₁ fs₂ : List CsvFile)
    (bad : CsvFile) (hbad : bad.outcome = .parserError)
    (hnice : ∀ f ∈ fs₁ ++ fs₂, niceFile f = true)
    (hnodup : ((fs₁ ++ fs₂).map fileTableName).Nodup)
    (hfresh : ∀ f ∈ fs₁ ++ fs₂,
      lookupTable db.tables (fileTableName f) = none) :
    load_csv_to_db db (fs₁ ++ bad :: fs₂) =
      .ok (⟨db.tables ++ (fs₁ ++ fs₂).flatMap fileTables⟩,
        fs₁.flatMap fileLogs ++ parseErrorLog bad :: fs₂.flatMap fileLogs,
        (fs₁ ++ fs₂).flatMap fileActions) ∧
    (fs₁.flatMap fileLogs ++
      parseErrorLog bad :: fs₂.flatMap fileLogs).count (parseErrorLog bad)
      = 1 := by
  rw [List.map_append, List.nodup_append] at hnodup
  obtain ⟨hnd₁, hnd₂, hdisj⟩ := hnodup
  constructor
  · unfold load_csv_to_db
    rw [runFiles_append]
    have h₁ := runFiles_nice fs₁ db [] []
      (fun f hf => hnice f (List.mem_append_left _ hf)) hnd₁
      (fun f hf => hfresh f (List.mem_append_left _ hf))
    simp only [List.nil_append] at h₁
    rw [h₁]
    have hbadstep : processFile
        (⟨db.tables ++ fs₁.flatMap fileTables⟩,
          fs₁.flatMap fileLogs, fs₁.flatMap fileActions) bad =
        .ok (⟨db.tables ++ fs₁.flatMap fileTables⟩,
          fs₁.flatMap fileLogs ++ [parseErrorLog bad],
          fs₁.flatMap fileActions) := by
      simp only [processFile, hbad, load_csv, parseErrorLog]
    have hfresh₂ : ∀ g ∈ fs₂,
        lookupTable (db.tables ++ fs₁.flatMap fileTables)
          (fileTableName g) = none := by
      intro g hg
      rw [lookupTable_append_of_none _ _ _
        (hfresh g (List.mem_append_right _ hg))]
      exact lookupTable_flatMap_of_not_mem fs₁ _
        (fun hmem => hdisj hmem (List.mem_map_of_mem fileTableName hg))
    have h₂ := runFiles_nice fs₂ ⟨db.tables ++ fs₁.flatMap fileTables⟩
      (fs₁.flatMap fileLogs ++ [parseErrorLog bad])
      (fs₁.flatMap fileActions)
      (fun f hf => hnice f (List.mem_append_right _ hf)) hnd₂ hfresh₂
    simp only [runFiles, hbadstep, h₂, List.flatMap_append,
      List.nil_append, List.append_assoc, List.singleton_append]
  · rw [List.count_append, List.count_cons_self,
      List.count_eq_zero.mpr, List.count_eq_zero.mpr]
    · intro hmem
      obtain ⟨g, _, hgl⟩ := List.mem_flatMap.mp hmem
      exact parseErrorLog_not_mem_fileLogs bad g hgl
    · intro hmem
      obtain ⟨g, _, hgl⟩ := List.mem_flatMap.mp hmem
      exact parseErrorLog_not_mem_fileLogs bad g hgl

/-- Claim C4 witness: a batch of three files whose middle file is
unparseable still commits and traces the tables of the two good files,
and logs the single parse-error skip. -/
theorem failure_isolation_witness :
    load_csv_to_db ⟨[]⟩
        [⟨"aaaa_202401.csv", .success ⟨["c"], [["1"]]⟩⟩,
         ⟨"bad1_202401.csv", .parserError⟩,
         ⟨"bbbb_202401.csv", .success ⟨["d"], [["2"]]⟩⟩] =
      .ok (⟨[("aaa", ⟨"c VARCHAR(255)", [["1"]]⟩),
          ("bbb", ⟨"d VARCHAR(255)", [["2"]]⟩)]⟩,
        [.info "Loaded data from \"aaaa_202401.csv\".",
         .info "Table \"aaa\" created or exists already.",
         .info "Data inserted into \"aaa\".",
         .error "Error parsing CSV file \"bad1_202401.csv\".",
         .info "Loaded data from \"bbbb_202401.csv\".",
         .info "Table \"bbb\" created or exists already.",
         .info "Data inserted into \"bbb\"."],
        [.createTable "aaa" "c VARCHAR(255)",
         .insertData "aaa" ⟨["c"], [["1"]]⟩,
         .createTable "bbb" "d VARCHAR(255)",
         .insertData "bbb" ⟨["d"], [["2"]]⟩]) ∧
    [.info "Loaded data from \"aaaa_202401.csv\".",
     .info "Table \"aaa\" created or exists already.",
     .info "Data inserted into \"aaa\".",
     LogEntry.error "Error parsing CSV file \"bad1_202401.csv\".",
     .info "Loaded data from \"bbbb_202401.csv\".",
     .info "Table \"bbb\" created or exists already.",
     .info "Data inserted into \"bbb\"."].count
      (parseErrorLog ⟨"bad1_202401.csv", .parserError⟩) = 1 := by
  have h := failure_isolation ⟨[]⟩
    [⟨"aaaa_202401.csv", .success ⟨["c"], [["1"]]⟩⟩]
    [⟨"bbbb_202401.csv", .success ⟨["d"], [["2"]]⟩⟩]
    ⟨"bad1_202401.csv", .parserError⟩ rfl (by decide) (by decide)
    (by decide)
  exact ⟨h.1, h.2⟩

end StoreData
